import Mathlib

/-!
Verification of the two cogs of `discord-bot-py`:
`src/cogs/track_react.py` (keyword-to-emoji reaction matcher) and
`src/cogs/mod_message.py` (canned moderator message dispatcher).

The Python code is shallowly embedded: the pure text-processing helpers
become Lean functions over `String`/`List Char`, the event handlers become
functions from explicit state to state plus a list of emitted effects and
log lines, and the fragment of Python `re` that the generated patterns
can exercise is given an executable semantics (`compileRE` / `reSearch`,
modelling Python 3.11, where a doubled quantifier such as `c++` parses as
a possessive repetition).
-/

/-! Section: String helpers modelling Python str methods -/

/-- Newline separator used by the embedding of `str.splitlines` / `join`. -/
def nlStr : String := "\n"

/-- The triple-backtick code fence marker. -/
def fenceStr : String := "```"

/-- Core of the embedding of Python `str.title`: a letter is uppercased
when the previous character is not a letter, lowercased otherwise. -/
def pyTitleAux : Bool → List Char → List Char
  | _, [] => []
  | prevAlpha, c :: rest =>
    let c2 := if c.isAlpha then (if prevAlpha then c.toLower else c.toUpper) else c
    c2 :: pyTitleAux c.isAlpha rest

/-- Embedding of Python `str.title` (ASCII fragment). -/
def pyTitle (s : String) : String := String.mk (pyTitleAux false s.data)

/-- Worker for the embedding of Python `str.split()`: `cur` holds the
characters of the current word in reverse. -/
def wsSplitAux : List Char → List Char → List String
  | [], [] => []
  | [], cur => [String.mk cur.reverse]
  | c :: rest, cur =>
    if c.isWhitespace then
      match cur with
      | [] => wsSplitAux rest []
      | _ => String.mk cur.reverse :: wsSplitAux rest []
    else wsSplitAux rest (c :: cur)

/-- Embedding of Python `str.split()` with no argument: split on runs of
whitespace, discarding empty pieces. -/
def pySplitWS (s : String) : List String :=
  wsSplitAux s.data []

/-- Split a character list at every occurrence of a separator. -/
def splitChar (sep : Char) : List Char → List (List Char)
  | [] => [[]]
  | c :: rest =>
    let r := splitChar sep rest
    if c = sep then [] :: r
    else
      match r with
      | [] => [[c]]
      | h :: t => (c :: h) :: t

/-- Embedding of Python `str.splitlines` for newline-separated text:
no trailing empty line is produced for text ending in a newline, and the
empty string yields no lines. -/
def pySplitlines (s : String) : List String :=
  if s.data = [] then []
  else
    let parts := (splitChar '\n' s.data).map String.mk
    match parts.getLast? with
    | some last => if last = "" then parts.dropLast else parts
    | none => parts

/-- Embedding of Python `str.startswith`. -/
def pyStartsWith (s pre : String) : Bool :=
  pre.data.isPrefixOf s.data

/-- Embedding of `"\n".join`. -/
def joinLines : List String → String
  | [] => ""
  | [l] => l
  | l :: rest => l ++ nlStr ++ joinLines rest

/-- Substring containment test, modelling the Python `in` operator on str. -/
def strContains (hay needle : String) : Bool :=
  (List.range (hay.data.length + 1)).any
    (fun i => needle.data.isPrefixOf (hay.data.drop i))

/-- Embedding of `track.replace("_", ".?")` from `on_ready`
(src/cogs/track_react.py line 65), working on character lists. -/
def underscoreToDot (cs : List Char) : List Char :=
  cs.foldr (fun c acc => if c = '_' then '.' :: '?' :: acc else c :: acc) []

/-! Section: A small executable semantics for the fragment of Python `re`
exercised by the patterns that `on_ready` builds. -/

/-- Word character in the sense of the regex `\b` and `\B` assertions
(ASCII fragment of Python `\w`). -/
def isWordChar (c : Char) : Bool := c.isAlphanum || c == '_'

/-- Character comparison, case-folded when the `re.IGNORECASE` flag is set. -/
def charEq (ic : Bool) (a b : Char) : Bool :=
  if ic then a.toLower == b.toLower else a == b

/-- Whether position `i` of the text holds a word character. -/
def wordAt (s : List Char) (i : Nat) : Bool :=
  match s.get? i with
  | some c => isWordChar c
  | none => false

/-- Whether position `i` is a word boundary (the semantics of `\b`). -/
def boundaryAt (s : List Char) (i : Nat) : Bool :=
  (decide (i ≠ 0) && wordAt s (i - 1)) != wordAt s i

/-- Regular-expression abstract terms for the generated patterns:
literal characters, the dot wildcard, greedy `?` and `+`, the Python 3.11
possessive repetition of a single literal (what `c++` parses to), and the
`\b` / `\B` assertions. -/
inductive RE where
  | eps : RE
  | wordB : RE
  | nonWordB : RE
  | char (c : Char) : RE
  | dot : RE
  | opt (r : RE) : RE
  | plus (r : RE) : RE
  | plusPoss (c : Char) : RE
  | seq (a b : RE) : RE
deriving DecidableEq

/-- Length of the run of characters equal (under the flag) to `c`. -/
def runLenAux (ic : Bool) (c : Char) : List Char → Nat
  | [] => 0
  | d :: rest => if charEq ic c d then runLenAux ic c rest + 1 else 0

/-- Length of the maximal run of `c` starting at position `i`. -/
def runLen (ic : Bool) (c : Char) (s : List Char) (i : Nat) : Nat :=
  runLenAux ic c (s.drop i)

/-- Backtracking matcher in continuation-passing style; `fuel` bounds the
recursion depth. The possessive case consumes the maximal run and offers
the continuation no alternative, exactly like a Python 3.11 possessive
quantifier. -/
def reMatch (ic : Bool) : Nat → RE → List Char → Nat → (Nat → Bool) → Bool
  | 0, _, _, _, _ => false
  | Nat.succ fuel, r, s, i, k =>
    match r with
    | RE.eps => k i
    | RE.wordB => boundaryAt s i && k i
    | RE.nonWordB => !boundaryAt s i && k i
    | RE.char c =>
      match s.get? i with
      | some d => charEq ic c d && k (i + 1)
      | none => false
    | RE.dot =>
      match s.get? i with
      | some d => (d != '\n') && k (i + 1)
      | none => false
    | RE.opt a => reMatch ic fuel a s i k || k i
    | RE.plus a =>
      reMatch ic fuel a s i (fun j => reMatch ic fuel (RE.plus a) s j k || k j)
    | RE.plusPoss c =>
      let n := runLen ic c s i
      decide (n ≠ 0) && k (i + n)
    | RE.seq a b => reMatch ic fuel a s i (fun j => reMatch ic fuel b s j k)

/-- Size of a regex term, used to pick a sufficient fuel. -/
def reSize : RE → Nat
  | RE.eps | RE.wordB | RE.nonWordB | RE.char _ | RE.dot | RE.plusPoss _ => 1
  | RE.opt a => reSize a + 1
  | RE.plus a => reSize a + 1
  | RE.seq a b => reSize a + reSize b + 1

/-- Embedding of `Pattern.search`: try a match at every start position. -/
def reSearch (ic : Bool) (r : RE) (text : String) : Bool :=
  let s := text.data
  let fuel := (reSize r + 2) * (s.length + 2)
  (List.range (s.length + 1)).any (fun i => reMatch ic fuel r s i (fun _ => true))

/-- Token-by-token translation of a pattern string into `RE`, modelling the
fragment of the Python 3.11 `re` grammar these patterns can use: literal
characters, escapes, `.`, `?`, `+`, the possessive `++`, and `\b` / `\B`.
Unsupported constructs yield `none` (a compile failure). The atoms are
accumulated in reverse. -/
def compileAux : List Char → List RE → Option (List RE)
  | [], acc => some acc
  | '\\' :: c :: rest, acc =>
    if c = 'b' then compileAux rest (RE.wordB :: acc)
    else if c = 'B' then compileAux rest (RE.nonWordB :: acc)
    else if c.isAlpha || c.isDigit then none
    else compileAux rest (RE.char c :: acc)
  | ['\\'], _ => none
  | '.' :: rest, acc => compileAux rest (RE.dot :: acc)
  | '?' :: rest, acc =>
    match acc with
    | [] => none
    | a :: tl =>
      match a with
      | RE.char _ => compileAux rest (RE.opt a :: tl)
      | RE.dot => compileAux rest (RE.opt a :: tl)
      | RE.opt _ => compileAux rest (a :: tl)
      | RE.plus _ => compileAux rest (a :: tl)
      | _ => none
  | '+' :: rest, acc =>
    match acc with
    | [] => none
    | a :: tl =>
      match a with
      | RE.char _ => compileAux rest (RE.plus a :: tl)
      | RE.dot => compileAux rest (RE.plus a :: tl)
      | RE.plus (RE.char c) => compileAux rest (RE.plusPoss c :: tl)
      | _ => none
  | c :: rest, acc =>
    if c = '*' || c = '(' || c = ')' || c = '[' || c = ']' ||
       c = '|' || c = '^' || c = '$' then none
    else compileAux rest (RE.char c :: acc)

/-- Embedding of `re.compile` for the supported fragment. -/
def compileRE (pat : String) : Option RE :=
  (compileAux pat.data []).map (fun acc => acc.reverse.foldr RE.seq RE.eps)

/-- Compile a pattern string and search a text with it; `none` models a
`re.error` raised at compile time. -/
def pySearchStr (ic : Bool) (pat text : String) : Option Bool :=
  (compileRE pat).map (fun r => reSearch ic r text)

/-! Section: TrackReact (src/cogs/track_react.py) -/

/-- A guild custom emoji, identified by its name. -/
structure Emoji where
  name : String
deriving DecidableEq

/-- Log levels of the `logging` calls the cogs make. -/
inductive LogLevel where
  | error : LogLevel
  | warning : LogLevel
  | info : LogLevel
  | debug : LogLevel
deriving DecidableEq

/-- Insert-or-replace on an association list, modelling assignment to a
Python dict key (replacement keeps the key position, a fresh key appends). -/
def insertA (m : List (String × Emoji)) (k : String) (v : Emoji) :
    List (String × Emoji) :=
  if m.any (fun p => p.1 == k) then
    m.map (fun p => if p.1 == k then (k, v) else p)
  else m ++ [(k, v)]

/-- Embedding of the `tracks` dict comprehension of `on_ready`
(lines 45-49): keep the emojis whose name starts with `track_` and strip
that prefix from the name. -/
def buildTracks (emojis : List Emoji) : List (String × Emoji) :=
  emojis.foldl
    (fun m e =>
      if pyStartsWith e.name (("track_" : String)) then
        insertA m (String.mk (e.name.data.drop 6)) e
      else m)
    []

/-- The warning text of line 52, `"Could not find track %s for alias %s"`
with the two arguments interpolated. -/
def aliasWarning (src aliasName : String) : String :=
  "Could not find track " ++ src ++ " for alias " ++ aliasName

/-- Embedding of the alias loop of `on_ready` (lines 50-54): an alias whose
source is a known track clones the emoji of that track under the alias name;
otherwise a warning is recorded and the entry is skipped. Returns the
updated track map and the warnings in emission order. -/
def applyAliases :
    List (String × Emoji) → List (String × String) →
    List (String × Emoji) × List String
  | m, [] => (m, [])
  | m, (aliasName, src) :: rest =>
    match List.lookup src m with
    | none =>
      let r := applyAliases m rest
      (r.1, aliasWarning src aliasName :: r.2)
    | some e => applyAliases (insertA m aliasName e) rest

/-- The pattern fragment `\b`. -/
def bSlash : String := "\\b"

/-- The pattern fragment `\B`. -/
def bigB : String := "\\B"

/-- Embedding of the per-track pattern construction of `on_ready`
(lines 57-78): case-insensitive by default, but case-sensitive with the
name passed through `str.title` for single-character tracks and tracks in
the case-sensitive set; underscores become `.?`; the pattern is the track
text between `\b` and a trailing `\b`, inverted to `\B` when the final
character is not alphanumeric.  Returns the pattern source and the
ignore-case flag; `none` models the `AssertionError` of line 68 for an
empty track name.  The track text is spliced into the pattern verbatim,
without any escaping, exactly as in the source. -/
def buildPattern (cset : List String) (track : String) :
    Option (String × Bool) :=
  let p := if track.length = 1 ∨ track ∈ cset
           then (pyTitle track, false) else (track, true)
  let t2 := underscoreToDot p.1.data
  match t2.getLast? with
  | none => none
  | some c =>
    some (bSlash ++ String.mk t2 ++ (if c.isAlphanum then bSlash else bigB), p.2)

/-- One entry of the react map: a pattern (source and ignore-case flag)
paired with the emoji to react with. -/
abbrev Reacts : Type := List ((String × Bool) × Emoji)

/-- Embedding of the `re_reacts` loop of `on_ready` (lines 56-79): build a
pattern for every track; a failure on any track aborts the whole build
(the exception propagates out of the loop). -/
def buildReacts (cset : List String) : List (String × Emoji) → Option Reacts
  | [] => some []
  | te :: rest =>
    match buildPattern cset te.1 with
    | none => none
    | some p =>
      match buildReacts cset rest with
      | none => none
      | some r => some ((p, te.2) :: r)

/-- The error text of line 42. -/
def guildErrMsg : String := "Failed to find the guild."

/-- Embedding of `on_ready` at the level of the react map: given the
emoji list of the resolved guild (`none` when `get_guild` fails) and the react
map currently installed, return the react map after the handler runs and
the error/warning log lines it emits.  `self.reacts` is only assigned
after the build completes (line 80), so a failed guild lookup or an
aborted build leaves the previous map installed. -/
def onReadyReacts (aliases : List (String × String)) (cset : List String)
    (guild : Option (List Emoji)) (r0 : Reacts) :
    Reacts × List (LogLevel × String) :=
  match guild with
  | none => (r0, [(LogLevel.error, guildErrMsg)])
  | some emojis =>
    let tr := applyAliases (buildTracks emojis) aliases
    let warnLogs := tr.2.map (fun w => (LogLevel.warning, w))
    match buildReacts cset tr.1 with
    | none => (r0, warnLogs)
    | some r => (r, warnLogs)

/-! ### Code-block stripping (`parse_codeblocks`, lines 84-98) -/

/-- The pseudo-line a fence line contributes when it consists of a single
whitespace-separated word: that word passed through `str.title`
(lines 92-94). -/
def fenceTag (line : String) : List String :=
  match pySplitWS line with
  | [w] => [pyTitle w]
  | _ => []

/-- One iteration of the `parse_codeblocks` loop: state is the `in_block`
flag and the accumulated surviving lines. -/
def pcStep (st : Bool × List String) (line : String) : Bool × List String :=
  if pyStartsWith line fenceStr then
    let acc2 := if st.1 then st.2 else st.2 ++ fenceTag line
    let ib2 := !st.1
    if ib2 then (ib2, acc2) else (ib2, acc2 ++ [line])
  else
    if st.1 then st else (st.1, st.2 ++ [line])

/-- Embedding of `TrackReact.parse_codeblocks`. -/
def parse_codeblocks (message : String) : String :=
  joinLines ((pySplitlines message).foldl pcStep (false, [])).2

/-! ### Reaction application and event handlers -/

/-- The channel a message lives in: a thread (with id, name and whether it
is a public thread) or an ordinary channel. -/
inductive Chan where
  | thread (id : Nat) (name : String) (isPublic : Bool) : Chan
  | other (id : Nat) : Chan
deriving DecidableEq

/-- The slice of a discord message the cog reads: its channel, its text
content, whether it carries a guild, and whether the bot may add
reactions in its channel. -/
structure Message where
  channel : Chan
  content : String
  hasGuild : Bool
  canAddReactions : Bool
deriving DecidableEq

/-- The warning of lines 105-109 (missing add-reactions permission). -/
def reactPermWarning : String := "Missing add_reactions permission."

/-- Embedding of `TrackReact.add_reacts` (lines 100-119): no-op without a
guild; warn and no-op without permission; otherwise strip code blocks,
collect the deduplicated emojis whose pattern matches, and react with
each.  Returns the reactions applied (in first-match order, one per
distinct emoji) and the log lines. -/
def addReacts (reacts : Reacts) (msg : Message) (content : String) :
    List Emoji × List (LogLevel × String) :=
  if !msg.hasGuild then ([], [])
  else if !msg.canAddReactions then ([], [(LogLevel.warning, reactPermWarning)])
  else
    let text := parse_codeblocks content
    let matched := reacts.foldl
      (fun acc pe =>
        if (pySearchStr pe.1.2 pe.1.1 text == some true) && !acc.contains pe.2
        then acc ++ [pe.2] else acc)
      []
    (matched, [])

/-- Remove a key from the pending-message map (`dict.pop`, line 129). -/
def eraseKey (k : Nat) (m : List (Nat × Message)) : List (Nat × Message) :=
  m.filter (fun p => p.1 != k)

/-- Insert-or-replace for the pending-message map keyed by channel id. -/
def insertN (m : List (Nat × Message)) (k : Nat) (v : Message) :
    List (Nat × Message) :=
  if m.any (fun p => p.1 == k) then
    m.map (fun p => if p.1 == k then (k, v) else p)
  else m ++ [(k, v)]

/-- The info log of line 127 (no pending message for the thread). -/
def threadMissingMsg : String := "Could not find message for thread"

/-- Embedding of `TrackReact.on_thread_create` (lines 121-131), after the
fixed `asyncio.sleep(0.5)`: if no pending message is recorded under the
thread id, log and stop; otherwise remove the entry and, when the stored
channel of the message is a thread, apply reactions scanning the name
of that channel (the thread title) instead of the message content.  Returns the new
pending map, the reactions applied (`none` when `add_reacts` was never
called), and the log lines. -/
def onThreadCreate (reacts : Reacts) (messages : List (Nat × Message))
    (threadId : Nat) :
    List (Nat × Message) × Option (List Emoji) × List (LogLevel × String) :=
  match List.lookup threadId messages with
  | none => (messages, none, [(LogLevel.info, threadMissingMsg)])
  | some msg =>
    let messages2 := eraseKey threadId messages
    match msg.channel with
    | Chan.thread _ nm _ =>
      let r := addReacts reacts msg nm
      (messages2, some r.1, r.2)
    | Chan.other _ => (messages2, none, [])

/-- Embedding of `TrackReact.on_message` (lines 133-138): record the
message under its channel id when the channel is a public thread, then
apply reactions using the message content. -/
def onMessage (reacts : Reacts) (messages : List (Nat × Message))
    (msg : Message) :
    List (Nat × Message) × List Emoji × List (LogLevel × String) :=
  let messages2 :=
    match msg.channel with
    | Chan.thread cid _ isPublic =>
      if isPublic then insertN messages cid msg else messages
    | Chan.other _ => messages
  let r := addReacts reacts msg msg.content
  (messages2, r.1, r.2)

/-! Section: ModMessage (src/cogs/mod_message.py) -/

/-- The observable effects of a `mod_message` invocation: an interaction
response (text, ephemeral flag, optional auto-delete delay in seconds) or
a plain message sent to the channel. -/
inductive MMEffect where
  | respond (text : String) (ephemeral : Bool) (deleteAfter : Option Nat) : MMEffect
  | send (content : String) : MMEffect
deriving DecidableEq

/-- The slice of the interaction the command reads: whether the channel is
messageable, the role names of the invoking user when the user is a guild
member (`none` otherwise), whether the guild of the channel resolves to a
guild, and whether the bot may send messages in the channel. -/
structure MMCtx where
  channelMessageable : Bool
  memberRoles : Option (List String)
  guildIsGuild : Bool
  botCanSend : Bool

/-- The moderator role name checked at line 59. -/
def modRole : String := "moderators"

/-- The ephemeral rejection of lines 60-63. -/
def rejectionMsg : String := "That command is only for moderators; sorry!"

/-- The ephemeral defensive notice of lines 68-71. -/
def badKeyMsg : String := "That canned message was not found! This is a bug."

/-- The ephemeral notice of lines 77-81. -/
def noPermsMsg : String := "I do not have permissions to send messages in this channel."

/-- The ephemeral acknowledgment of lines 85-89. -/
def ackMsg : String := "Sending canned message."

/-- Embedding of `ModMessage.mod_message` (lines 44-93): the chain of
early returns (non-messageable channel, non-member user, channel outside
a guild, missing moderator role, unknown canned key, missing bot send
permission) followed by the success path (ephemeral acknowledgment, then
the canned text posted to the channel, mention-prefixed when a mention
target is supplied).  Returns the effects in emission order and the log
lines. -/
def mod_message (canned : List (String × String)) (ctx : MMCtx)
    (msgKey : String) (mention : Option String) :
    List MMEffect × List (LogLevel × String) :=
  if !ctx.channelMessageable then
    ([], [(LogLevel.debug, "Interaction is not in a messageable channel.")])
  else
    match ctx.memberRoles with
    | none => ([], [(LogLevel.debug, "Interaction user is not a guild member.")])
    | some roles =>
      if !ctx.guildIsGuild then
        ([], [(LogLevel.debug, "Interaction channel is not in a guild.")])
      else if !roles.contains modRole then
        ([MMEffect.respond rejectionMsg true none],
         [(LogLevel.debug, "Interaction member is not a moderator.")])
      else
        match List.lookup msgKey canned with
        | none =>
          ([MMEffect.respond badKeyMsg true none],
           [(LogLevel.warning, "Message type not valid.")])
        | some text =>
          if !ctx.botCanSend then
            ([MMEffect.respond noPermsMsg true (some 30)],
             [(LogLevel.warning, "No permission to post in channel.")])
          else
            let content :=
              match mention with
              | some m => m ++ " " ++ text
              | none => text
            ([MMEffect.respond ackMsg true (some 5), MMEffect.send content], [])

/-- Whether an effect is an interaction response. -/
def isRespondEff : MMEffect → Bool
  | MMEffect.respond _ _ _ => true
  | MMEffect.send _ => false

/-- Whether an effect is a public channel message. -/
def isSendEff : MMEffect → Bool
  | MMEffect.respond _ _ _ => false
  | MMEffect.send _ => true

/-! Section: Concrete sample data used by witnesses and counterexamples -/

/-- The transformation as the claim states it, modelled from the spec
wording "first-letter-uppercase-rest-lowercase" (Python `str.capitalize`),
for comparison with the `str.title` used by the source. -/
def specCapitalize (s : String) : String :=
  match s.data with
  | [] => ""
  | c :: rest => String.mk (c.toUpper :: rest.map Char.toLower)

/-- The symbol-suffixed track used as example by the claim. -/
def cppStr : String := "c++"

/-- The pattern source the code builds for the track `c++`. -/
def cppPatSrc : String := "\\bc++\\B"

/-- The pattern source described by the comment in the code for that track,
with the track text escaped. -/
def cppEscSrc : String := "\\bc\\+\\+\\B"

/-- The message of the positive example in the claim. -/
def loveMsg : String := "I love c++!"

/-- The message of the negative example in the claim. -/
def cppLangMsg : String := "c++lang"

/-- An underscored track name on which `str.title` and the
first-letter-only capitalization claimed disagree. -/
def abcdStr : String := "ab_cd"

/-- The fenced message of the code-block stripping example. -/
def sampleFenceMsg : String := "```python\n`foo`\n```"

/-- A fence-opening line for the code-block witness. -/
def witOpen : String := "```rust"

/-- The fenced body line for the code-block witness. -/
def witBody : String := "let x = 1;"

/-- A sample emoji. -/
def goEmoji : Emoji := Emoji.mk (("track_go" : String))

/-- A non-empty react map, as left behind by a successful build. -/
def sampleReacts : Reacts := [(("\\bgo\\b", true), goEmoji)]

/-- A pending message whose channel is a public thread named after a
track; it carries no guild so reaction application is a no-op. -/
def sampleMessage : Message :=
  { channel := Chan.thread 1 (("go" : String)) true
    content := "body text"
    hasGuild := false
    canAddReactions := false }

/-- A pending-message map holding `sampleMessage` under thread id 1. -/
def sampleMsgs : List (Nat × Message) := [(1, sampleMessage)]

/-- A one-entry canned message table. -/
def cannedSample : List (String × String) := [("flagged", "Please stop.")]

/-- A context in which every precondition of `mod_message` holds. -/
def ctxAllGood : MMCtx :=
  { channelMessageable := true
    memberRoles := some [modRole]
    guildIsGuild := true
    botCanSend := true }

/-- A context identical to `ctxAllGood` except that the member lacks the
moderator role. -/
def ctxNotMod : MMCtx :=
  { channelMessageable := true
    memberRoles := some ["helpers"]
    guildIsGuild := true
    botCanSend := true }

/-! Section: General lemmas -/

theorem pyTitleAux_length (l : List Char) : ∀ b, (pyTitleAux b l).length = l.length := by
  induction l with
  | nil => intro b; rfl
  | cons c rest ih => intro b; simp [pyTitleAux, ih]

theorem data_ne_nil_of_ne_empty {s : String} (h : s ≠ "") : s.data ≠ [] := by
  intro hn
  exact h (String.ext (show s.data = "".data from hn))

theorem pyTitle_data_ne_nil {s : String} (h : s ≠ "") : (pyTitle s).data ≠ [] := by
  intro hn
  have hlen := pyTitleAux_length s.data false
  have : (pyTitle s).data = pyTitleAux false s.data := rfl
  rw [this] at hn
  rw [hn] at hlen
  exact data_ne_nil_of_ne_empty h (List.length_eq_zero.mp hlen.symm)

theorem underscoreToDot_ne_nil {l : List Char} (h : l ≠ []) : underscoreToDot l ≠ [] := by
  cases l with
  | nil => exact absurd rfl h
  | cons c rest =>
    simp only [underscoreToDot, List.foldr]
    split <;> simp

theorem buildPattern_src_ne_empty {cset : List String} {t : String} {p : String × Bool}
    (h : buildPattern cset t = some p) : p.1 ≠ "" := by
  unfold buildPattern at h
  split at h <;>
  · simp only [] at h
    split at h
    · exact absurd h (by simp)
    · injection h with h2
      intro hemp
      rw [← h2] at hemp
      have hd := congrArg String.data hemp
      rw [String.data_append, String.data_append] at hd
      have hb : bSlash.data = ['\\', 'b'] := rfl
      rw [hb] at hd
      simp at hd

theorem buildReacts_mem {cset : List String} :
    ∀ {l : List (String × Emoji)} {r : Reacts}, buildReacts cset l = some r →
      ∀ pe ∈ r, ∃ te ∈ l, buildPattern cset te.1 = some pe.1 ∧ pe.2 = te.2 := by
  intro l
  induction l with
  | nil =>
    intro r h pe hpe
    simp only [buildReacts] at h
    injection h with h2
    rw [← h2] at hpe
    simp at hpe
  | cons te rest ih =>
    intro r h pe hpe
    simp only [buildReacts] at h
    cases hbp : buildPattern cset te.1 with
    | none => rw [hbp] at h; cases h
    | some p =>
      rw [hbp] at h
      cases hbr : buildReacts cset rest with
      | none => rw [hbr] at h; cases h
      | some rr =>
        rw [hbr] at h
        injection h with h2
        rw [← h2] at hpe
        cases hpe with
        | head => exact ⟨te, by simp, by simpa using hbp, rfl⟩
        | tail _ htl =>
          obtain ⟨te2, hmem, hb, he⟩ := ih hbr pe htl
          exact ⟨te2, by simp [hmem], hb, he⟩

theorem pcStep_inblock (acc : List String) (line : String)
    (h : pyStartsWith line fenceStr = false) : pcStep (true, acc) line = (true, acc) := by
  simp [pcStep, h]

theorem pcFold_inblock (body : List String) (l : List String) (acc : List String)
    (h : ∀ b ∈ body, pyStartsWith b fenceStr = false) :
    List.foldl pcStep (true, acc) (body ++ l) = List.foldl pcStep (true, acc) l := by
  induction body with
  | nil => rfl
  | cons b bs ih =>
    simp only [List.cons_append, List.foldl_cons]
    rw [pcStep_inblock acc b (h b (by simp))]
    exact ih (fun x hx => h x (by simp [hx]))

theorem pcStep_open (acc : List String) (openL : String)
    (h : pyStartsWith openL fenceStr = true) :
    pcStep (false, acc) openL = (true, acc ++ fenceTag openL) := by
  simp [pcStep, h]

theorem pcStep_close (acc : List String) (closeL : String)
    (h : pyStartsWith closeL fenceStr = true) :
    pcStep (true, acc) closeL = (false, acc ++ [closeL]) := by
  simp [pcStep, h]

/-- C1: the boundary logic is as described (inverted trailing boundary for
a symbol-suffixed track), but the track text is spliced into the pattern
unescaped, so for the example track of the claim itself, `c++` the built pattern is
`\bc++\B`, whose `++` is a possessive quantifier: it fails to match
"I love c++!".  The escaped pattern shown by the comment in the code would
match it, and would correctly reject "c++lang". -/
theorem c1_theorem :
    buildPattern [] cppStr = some (cppPatSrc, true) ∧
    pySearchStr true cppPatSrc loveMsg = some false ∧
    pySearchStr true cppEscSrc loveMsg = some true ∧
    pySearchStr true cppEscSrc cppLangMsg = some false :=
  ⟨by decide, by decide, by decide, by decide⟩

/-- C2 counterexample: for the track `ab_cd` listed case-sensitive, the
code builds the pattern from `str.title` (`Ab_Cd`), not from the claimed
first-letter-only capitalization (`Ab_cd`). -/
theorem c2_counterexample :
    buildPattern [abcdStr] abcdStr = some (("\\bAb.?Cd\\b"), false) ∧
    bSlash ++ String.mk (underscoreToDot (specCapitalize abcdStr).data) ++ bSlash
      = ("\\bAb.?cd\\b") ∧
    (("\\bAb.?Cd\\b") : String) ≠ ("\\bAb.?cd\\b") :=
  ⟨by decide, by decide, by decide⟩

/-- C2 (amended): single-character tracks and tracks in the case-sensitive
set are compiled case-sensitively from the `str.title` transform of the
name; every other track is compiled case-insensitively on the name without
case transformation (underscores become `.?` in both cases). -/
theorem c2_theorem (cset : List String) (track : String) (h : track ≠ "") :
    ((track.length = 1 ∨ track ∈ cset) →
      ∃ bnd, buildPattern cset track =
        some (bSlash ++ String.mk (underscoreToDot (pyTitle track).data) ++ bnd, false)) ∧
    (¬(track.length = 1 ∨ track ∈ cset) →
      ∃ bnd, buildPattern cset track =
        some (bSlash ++ String.mk (underscoreToDot track.data) ++ bnd, true)) := by
  constructor
  · intro hc
    have hne : underscoreToDot (pyTitle track).data ≠ [] :=
      underscoreToDot_ne_nil (pyTitle_data_ne_nil h)
    obtain ⟨c, hc2⟩ := Option.isSome_iff_exists.mp (List.getLast?_isSome.mpr hne)
    refine ⟨if c.isAlphanum then bSlash else bigB, ?_⟩
    simp only [buildPattern, if_pos hc, hc2]
  · intro hc
    have hne : underscoreToDot track.data ≠ [] :=
      underscoreToDot_ne_nil (data_ne_nil_of_ne_empty h)
    obtain ⟨c, hc2⟩ := Option.isSome_iff_exists.mp (List.getLast?_isSome.mpr hne)
    refine ⟨if c.isAlphanum then bSlash else bigB, ?_⟩
    simp only [buildPattern, if_neg hc, hc2]

/-- Witness for C2: both branches at concrete tracks. -/
theorem c2_witness :
    (∃ bnd, buildPattern [cppStr] cppStr =
      some (bSlash ++ String.mk (underscoreToDot (pyTitle cppStr).data) ++ bnd, false)) ∧
    (∃ bnd, buildPattern [] (("go" : String)) =
      some (bSlash ++ String.mk (underscoreToDot (("go" : String)).data) ++ bnd, true)) :=
  ⟨(c2_theorem [cppStr] cppStr (by decide)).1 (by decide),
   (c2_theorem [] (("go" : String)) (by decide)).2 (by decide)⟩

/-- C3: every line strictly inside a fenced region is removed (processing
skips to after the closing fence, keeping only the optional capitalized
language tag of the opening line and the closing fence line), and on the
example message the stripped text contains "Python" and not "foo". -/
theorem c3_theorem :
    (∀ (openL closeL : String) (body rest acc : List String),
      pyStartsWith openL fenceStr = true →
      pyStartsWith closeL fenceStr = true →
      (∀ b ∈ body, pyStartsWith b fenceStr = false) →
      List.foldl pcStep (false, acc) (openL :: (body ++ closeL :: rest)) =
        List.foldl pcStep (false, (acc ++ fenceTag openL) ++ [closeL]) rest) ∧
    strContains (parse_codeblocks sampleFenceMsg) (("Python" : String)) = true ∧
    strContains (parse_codeblocks sampleFenceMsg) (("foo" : String)) = false := by
  refine ⟨?_, by decide, by decide⟩
  intro openL closeL body rest acc h1 h2 h3
  simp only [List.foldl_cons]
  rw [pcStep_open acc openL h1]
  rw [pcFold_inblock body (closeL :: rest) _ h3]
  rw [List.foldl_cons, pcStep_close _ closeL h2]

/-- Witness for C3: the fence-interior removal applied to a concrete
message. -/
theorem c3_witness :
    List.foldl pcStep (false, []) (witOpen :: ([witBody] ++ fenceStr :: [])) =
      List.foldl pcStep (false, ([] ++ fenceTag witOpen) ++ [fenceStr]) [] :=
  c3_theorem.1 witOpen fenceStr [witBody] [] [] (by decide) (by decide) (by decide)

/-- C4: an alias entry whose source track is missing contributes no map
entry, appends exactly one warning, and processing of the remaining
entries continues unchanged (the build itself is a total function and
raises nothing). -/
theorem c4_theorem (m : List (String × Emoji)) (aliasName src : String)
    (rest : List (String × String)) (h : List.lookup src m = none) :
    applyAliases m ((aliasName, src) :: rest) =
      ((applyAliases m rest).1, aliasWarning src aliasName :: (applyAliases m rest).2) := by
  simp [applyAliases, h]

/-- Witness for C4: the alias `c++` whose source `cpp` has no track. -/
theorem c4_witness :
    applyAliases [] [(cppStr, ("cpp" : String))] =
      ((applyAliases [] []).1, aliasWarning ("cpp" : String) cppStr :: (applyAliases [] []).2) :=
  c4_theorem [] cppStr (("cpp" : String)) [] rfl

/-- C5: after a ready event the installed react map is either exactly the
previous map (failed guild lookup or aborted build) or exactly the fully
built new map, never a partial mixture; and every entry of a completed
build has a non-empty pattern source. -/
theorem c5_theorem (al : List (String × String)) (cset : List String)
    (guild : Option (List Emoji)) (r0 : Reacts) :
    (onReadyReacts al cset guild r0).1 = r0 ∨
    (∃ emojis r, guild = some emojis ∧
      buildReacts cset (applyAliases (buildTracks emojis) al).1 = some r ∧
      (onReadyReacts al cset guild r0).1 = r ∧
      ∀ pe ∈ r, pe.1.1 ≠ "") := by
  cases guild with
  | none => left; rfl
  | some emojis =>
    cases hbr : buildReacts cset (applyAliases (buildTracks emojis) al).1 with
    | none => left; simp [onReadyReacts, hbr]
    | some r =>
      right
      refine ⟨emojis, r, rfl, hbr, by simp [onReadyReacts, hbr], ?_⟩
      intro pe hpe
      obtain ⟨te, _, hbp, _⟩ := buildReacts_mem hbr pe hpe
      exact buildPattern_src_ne_empty hbp

/-- Witness for C5 at a concrete ready event. -/
theorem c5_witness :
    (onReadyReacts [] [] none []).1 = ([] : Reacts) ∨
    (∃ emojis r, (none : Option (List Emoji)) = some emojis ∧
      buildReacts [] (applyAliases (buildTracks emojis) []).1 = some r ∧
      (onReadyReacts [] [] none []).1 = r ∧
      ∀ pe ∈ r, pe.1.1 ≠ "") :=
  c5_theorem [] [] none []

/-- C6 counterexample: a ready event that fails to resolve the guild while
a previous build is installed logs the error but leaves the matcher
populated, not empty. -/
theorem c6_counterexample :
    (onReadyReacts [] [] none sampleReacts).1 ≠ [] ∧
    (onReadyReacts [] [] none sampleReacts).2 = [(LogLevel.error, guildErrMsg)] :=
  ⟨by decide, by decide⟩

/-- C6 (amended): when the guild cannot be resolved the handler logs an
error and returns with the matcher left unchanged — hence still empty
whenever no earlier build had completed. -/
theorem c6_theorem (al : List (String × String)) (cset : List String) (r0 : Reacts) :
    onReadyReacts al cset none r0 = (r0, [(LogLevel.error, guildErrMsg)]) := rfl

/-- Witness for C6 starting from the initial empty matcher. -/
theorem c6_witness :
    onReadyReacts [] [] none [] = (([] : Reacts), [(LogLevel.error, guildErrMsg)]) :=
  c6_theorem [] [] []

/-- C7: a thread-creation event with no recorded pending message logs an
info line, attempts no reaction and returns the state unchanged; with a
pending entry, the entry is removed and (the stored message living in a
thread channel) reactions are computed from the thread name rather than
the message body. -/
theorem c7_theorem (reacts : Reacts) (msgs : List (Nat × Message)) (tid : Nat) :
    (List.lookup tid msgs = none →
      onThreadCreate reacts msgs tid =
        (msgs, none, [(LogLevel.info, threadMissingMsg)])) ∧
    (∀ msg, List.lookup tid msgs = some msg →
      (onThreadCreate reacts msgs tid).1 = eraseKey tid msgs ∧
      ∀ cid nm pb, msg.channel = Chan.thread cid nm pb →
        (onThreadCreate reacts msgs tid).2.1 = some (addReacts reacts msg nm).1) := by
  constructor
  · intro h
    simp [onThreadCreate, h]
  · intro msg h
    constructor
    · simp only [onThreadCreate, h]
      cases hc : msg.channel <;> simp
    · intro cid nm pb hch
      simp [onThreadCreate, h, hch]

/-- Witness for C7: a missing and a present pending entry. -/
theorem c7_witness :
    onThreadCreate [] sampleMsgs 2 = (sampleMsgs, none, [(LogLevel.info, threadMissingMsg)]) ∧
    (onThreadCreate [] sampleMsgs 1).1 = eraseKey 1 sampleMsgs ∧
    (onThreadCreate [] sampleMsgs 1).2.1 = some (addReacts [] sampleMessage (("go" : String))).1 :=
  ⟨(c7_theorem [] sampleMsgs 2).1 (by decide),
   ((c7_theorem [] sampleMsgs 1).2 sampleMessage (by decide)).1,
   ((c7_theorem [] sampleMsgs 1).2 sampleMessage (by decide)).2 1 (("go" : String)) true (by decide)⟩

/-- C8: an invocation in a messageable guild channel by a guild member
lacking the moderators role yields exactly the one ephemeral rejection
response and no public channel message. -/
theorem c8_theorem (canned : List (String × String)) (ctx : MMCtx)
    (roles : List String) (key : String) (mention : Option String)
    (h1 : ctx.channelMessageable = true) (h2 : ctx.memberRoles = some roles)
    (h3 : ctx.guildIsGuild = true) (h4 : modRole ∉ roles) :
    (mod_message canned ctx key mention).1 = [MMEffect.respond rejectionMsg true none] ∧
    ((mod_message canned ctx key mention).1.filter isSendEff) = [] := by
  obtain ⟨cm, mr, gg, bs⟩ := ctx
  simp only at h1 h2 h3
  subst h1 h2 h3
  constructor <;> simp [mod_message, h4, isSendEff]

/-- Witness for C8 with a member holding only the helpers role. -/
theorem c8_witness :
    (mod_message cannedSample ctxNotMod (("flagged" : String)) none).1
      = [MMEffect.respond rejectionMsg true none] ∧
    ((mod_message cannedSample ctxNotMod (("flagged" : String)) none).1.filter isSendEff) = [] :=
  c8_theorem cannedSample ctxNotMod [("helpers" : String)] (("flagged" : String)) none
    rfl rfl rfl (by decide)

/-- C9: when every precondition holds, the effects are exactly the
auto-expiring ephemeral acknowledgment followed by one persistent channel
message whose content is the canned text, prefixed by the mention string
and a space exactly when a mention target is supplied. -/
theorem c9_theorem (canned : List (String × String)) (ctx : MMCtx)
    (roles : List String) (key text : String) (mention : Option String)
    (h1 : ctx.channelMessageable = true) (h2 : ctx.memberRoles = some roles)
    (h3 : ctx.guildIsGuild = true) (h4 : modRole ∈ roles)
    (h5 : List.lookup key canned = some text) (h6 : ctx.botCanSend = true) :
    (mention = none →
      (mod_message canned ctx key mention).1 =
        [MMEffect.respond ackMsg true (some 5), MMEffect.send text]) ∧
    (∀ m, mention = some m →
      (mod_message canned ctx key mention).1 =
        [MMEffect.respond ackMsg true (some 5), MMEffect.send (m ++ " " ++ text)]) := by
  obtain ⟨cm, mr, gg, bs⟩ := ctx
  simp only at h1 h2 h3 h6
  subst h1 h2 h3 h6
  constructor
  · intro hm; subst hm; simp [mod_message, h4, h5]
  · intro m hm; subst hm; simp [mod_message, h4, h5]

/-- Witness for C9 in both mention cases. -/
theorem c9_witness :
    (mod_message cannedSample ctxAllGood (("flagged" : String)) none).1 =
      [MMEffect.respond ackMsg true (some 5), MMEffect.send (("Please stop." : String))] ∧
    (mod_message cannedSample ctxAllGood (("flagged" : String)) (some (("@u" : String)))).1 =
      [MMEffect.respond ackMsg true (some 5),
       MMEffect.send (("@u" : String) ++ " " ++ ("Please stop." : String))] :=
  ⟨(c9_theorem cannedSample ctxAllGood [modRole] (("flagged" : String))
      (("Please stop." : String)) none rfl rfl rfl (by decide) (by decide) rfl).1 rfl,
   (c9_theorem cannedSample ctxAllGood [modRole] (("flagged" : String))
      (("Please stop." : String)) (some (("@u" : String))) rfl rfl rfl (by decide)
      (by decide) rfl).2 (("@u" : String)) rfl⟩

/-- C10: along every control path at most one interaction response is
emitted, and a public channel send occurs only when every precondition
(messageable channel, guild member, guild, moderator role, known canned
key, bot send permission) holds. -/
theorem c10_theorem (canned : List (String × String)) (ctx : MMCtx)
    (key : String) (mention : Option String) :
    ((mod_message canned ctx key mention).1.countP isRespondEff ≤ 1) ∧
    ((∃ e ∈ (mod_message canned ctx key mention).1, isSendEff e = true) →
      ctx.channelMessageable = true ∧ ctx.guildIsGuild = true ∧
      ctx.botCanSend = true ∧
      (∃ roles, ctx.memberRoles = some roles ∧ modRole ∈ roles) ∧
      (∃ t, List.lookup key canned = some t)) := by
  obtain ⟨cm, mr, gg, bs⟩ := ctx
  cases cm with
  | false => exact ⟨by simp [mod_message], by simp [mod_message, isSendEff]⟩
  | true =>
    cases mr with
    | none => exact ⟨by simp [mod_message], by simp [mod_message, isSendEff]⟩
    | some roles =>
      cases gg with
      | false => exact ⟨by simp [mod_message], by simp [mod_message, isSendEff]⟩
      | true =>
        by_cases hr : modRole ∈ roles
        · cases hl : List.lookup key canned with
          | none =>
            refine ⟨by simp [mod_message, hr, hl, isRespondEff], ?_⟩
            intro hex
            simp [mod_message, hr, hl, isSendEff] at hex
          | some text =>
            cases bs with
            | false =>
              refine ⟨by simp [mod_message, hr, hl, isRespondEff], ?_⟩
              intro hex
              simp [mod_message, hr, hl, isSendEff] at hex
            | true =>
              refine ⟨by simp [mod_message, hr, hl, isRespondEff, isSendEff], ?_⟩
              intro _
              exact ⟨rfl, rfl, rfl, ⟨roles, rfl, hr⟩, ⟨text, rfl⟩⟩
        · refine ⟨by simp [mod_message, hr, isRespondEff], ?_⟩
          intro hex
          simp [mod_message, hr, isSendEff] at hex

/-- Witness for C10 on the all-preconditions path. -/
theorem c10_witness :
    ((mod_message cannedSample ctxAllGood (("flagged" : String)) none).1.countP isRespondEff ≤ 1) ∧
    (ctxAllGood.channelMessageable = true ∧ ctxAllGood.guildIsGuild = true ∧
      ctxAllGood.botCanSend = true ∧
      (∃ roles, ctxAllGood.memberRoles = some roles ∧ modRole ∈ roles) ∧
      (∃ t, List.lookup (("flagged" : String)) cannedSample = some t)) :=
  ⟨(c10_theorem cannedSample ctxAllGood (("flagged" : String)) none).1,
   (c10_theorem cannedSample ctxAllGood (("flagged" : String)) none).2 (by decide)⟩
